import Mathlib

/-!
Shallow embedding of the reconciliation engine of
`src/.xlsxApplication.py` (class `ExcelProcessorApp`).

Modelling conventions:
* A raw spreadsheet cell (a pandas value) is `CellVal`: a string, a number,
  or empty.  Python floats are modelled as exact rationals `ℚ`; the program
  never relies on rounding, and every number it builds is a finite decimal.
* A pandas `NaN` (empty cell) is `CellVal.empty`; pandas' `==` never matches
  `NaN`, which `cellEq` reflects.
* The Qt table stores display strings.  A table cell holding the Python
  `str()` of a float `q` is modelled as `CellVal.num q`, using the fact that
  `float(str(q)) == q` (Python float printing round-trips, and the printed
  form contains no comma, so `_to_float`'s comma replacement is the
  identity on it).  A table cell holding any other text is `CellVal.str`;
  an absent `QTableWidgetItem` or empty text is `CellVal.empty`, which the
  code treats identically (both coerce to `0.0`).
* The `Durum` (status) cell text is always produced by `_update_l_column`
  and optionally extended by `_process_fsnkp_rows`; it is modelled as
  `DurumVal`: the numeric part, whether the "#SİPARİŞ VER" order marker is
  present (appended exactly when the numeric part is negative), and whether
  the "#FSNKP" merge marker has been appended.  The code's guard
  `if "#FSNKP" not in current_durum_text` makes the marker appear at most
  once, which the `Bool` field encodes.
* Python's `float(...)` parser is modelled by `parseFloat` for the decimal
  forms `[ws][+-]digits[.digits][ws]`; the exotic accepted inputs
  (exponents, `inf`, `nan`, underscores) are not modelled — no input in the
  source's data path produces them, apart from `str(NaN) == "nan"`, which
  the model coerces to `0` where Python would propagate `NaN` (pandas'
  `Series.sum(skipna=True)` drops the `NaN` again, so sums agree).
-/

namespace Xlsx

/-- Raw value of one spreadsheet cell as read by pandas: empty (`NaN`/`None`),
a string, or a number (Python float, modelled exactly as a rational). -/
inductive CellVal
  | empty
  | str (s : String)
  | num (q : ℚ)
  deriving DecidableEq

instance : Inhabited CellVal := ⟨CellVal.empty⟩

/-- List-level helper: is `pat` a prefix of `l`? (Used to model Python's
substring test `pat in s`.) -/
def isPrefixList : List Char → List Char → Bool
  | [], _ => true
  | _ :: _, [] => false
  | a :: as, b :: bs => a == b && isPrefixList as bs

/-- Does `l` contain `pat` as a contiguous sublist?  Embeds Python's
`pat in s` substring test. -/
def containsSub (pat : List Char) : List Char → Bool
  | [] => isPrefixList pat []
  | c :: rest => isPrefixList pat (c :: rest) || containsSub pat rest

/-- Embeds Python's `s.replace(a, b)` for one-character patterns. -/
def replaceChar (s : String) (a b : Char) : String :=
  String.mk (s.data.map fun c => if c == a then b else c)

/-- Embeds Python's `s.replace(a, "")` for a one-character pattern. -/
def dropCharAll (s : String) (a : Char) : String :=
  String.mk (s.data.filter fun c => !(c == a))

/-- Numeric value of a digit list, most significant first. -/
def digitsVal (l : List Char) : ℕ :=
  l.foldl (fun n c => 10 * n + (c.toNat - 48)) 0

/-- A parsed decimal literal: sign, integer digits value, fraction digits
value and fraction length, denoting `±(intPart + fracPart / 10 ^ fracLen)`.
Kept in `ℕ`/`Bool` form so that parsing is kernel-computable. -/
structure DecLit where
  neg : Bool
  intPart : ℕ
  fracPart : ℕ
  fracLen : ℕ
  deriving DecidableEq

/-- Rational value denoted by a parsed decimal literal. -/
def decLitVal (d : DecLit) : ℚ :=
  (if d.neg then -1 else 1) * ((d.intPart : ℚ) + (d.fracPart : ℚ) / (10 : ℚ) ^ d.fracLen)

/-- Parse an unsigned decimal: `digits`, `digits.digits`, `digits.` or
`.digits` (at least one digit overall), as Python's `float` accepts. -/
def parseUnsigned (l : List Char) : Option (ℕ × ℕ × ℕ) :=
  match l.span Char.isDigit with
  | (intPart, rest) =>
    match rest with
    | [] =>
      if intPart.isEmpty then none
      else some (digitsVal intPart, 0, 0)
    | '.' :: frac =>
      if frac.all Char.isDigit && !(intPart.isEmpty && frac.isEmpty) then
        some (digitsVal intPart, digitsVal frac, frac.length)
      else none
    | _ => none

/-- Strip leading and trailing whitespace, as Python's `float` does. -/
def trimChars (l : List Char) : List Char :=
  ((l.dropWhile Char.isWhitespace).reverse.dropWhile Char.isWhitespace).reverse

/-- Syntactic part of Python's `float(s)`: optional sign, digits with an
optional decimal point; `none` where Python raises `ValueError`. -/
def parseDec (s : String) : Option DecLit :=
  match trimChars s.data with
  | '-' :: rest => (parseUnsigned rest).map (fun p => ⟨true, p.1, p.2.1, p.2.2⟩)
  | '+' :: rest => (parseUnsigned rest).map (fun p => ⟨false, p.1, p.2.1, p.2.2⟩)
  | l => (parseUnsigned l).map (fun p => ⟨false, p.1, p.2.1, p.2.2⟩)

/-- Embeds Python's `float(s)` on decimal literals. -/
def parseFloat (s : String) : Option ℚ :=
  (parseDec s).map decLitVal

/-- Embeds `_to_float` (table-cell coercion): `None` item or empty text give
`0.0`; otherwise `float(text.replace(",", "."))`, and `0.0` on failure. -/
def toFloat : CellVal → ℚ
  | .empty => 0
  | .num q => q
  | .str s => (parseFloat (replaceChar s ',' '.')).getD 0

/-- Embeds `_to_float_series` (pandas-value coercion): strings first drop
all `.` then turn `,` into `.`, then `float(...)`, with `0.0` on
`ValueError`/`TypeError` (e.g. `float(None)`). -/
def toFloatSeries : CellVal → ℚ
  | .empty => 0
  | .num q => q
  | .str s => (parseFloat (replaceChar (dropCharAll s '.') ',' '.')).getD 0

/-- Embeds Python's `str(value)` on a raw cell.  For numbers the exact
printed text is irrelevant to every claim; the stand-in keeps the two facts
the code relies on: it contains no letter, and a `-` only when negative. -/
def ratRepr (q : ℚ) : String :=
  toString q.num ++ (if q.den == 1 then "" else "/" ++ toString q.den)

/-- Stringify a raw cell, as `str(row[...])` does (`str(NaN)` is `"nan"`). -/
def cellStr : CellVal → String
  | .empty => "nan"
  | .str s => s
  | .num q => ratRepr q

/-- Stringify a raw cell into a table cell.  A numeric value stays `num q`:
the table text is `str(q)`, and `float` recovers `q` exactly (round-trip of
Python float printing). -/
def stringifyCell : CellVal → CellVal
  | .empty => .str "nan"
  | .str s => .str s
  | .num q => .num q

/-- Embeds pandas' elementwise `==` between two raw values: equal numbers or
equal strings match; `NaN` matches nothing; a number never equals a string. -/
def cellEq : CellVal → CellVal → Bool
  | .num a, .num b => a == b
  | .str a, .str b => a == b
  | _, _ => false

/-- Embeds pandas' elementwise `==` between a raw cell and a Python string
(`df[col] == malzeme_val` where `malzeme_val` is the table text): only a
string cell equal to the text matches. -/
def strMatchesCell (key : String) : CellVal → Bool
  | .str s => s == key
  | _ => false

/-- One row of sheet 1, restricted to the columns the code reads
(`SHEET1_COLS`): `a` = column A (hierarchy / kit code), `c` = column C
(Malzeme, the match key), `g` = column G (Açıklama), `e` = column E
(Miktar). -/
structure S1Row where
  a : CellVal
  c : CellVal
  g : CellVal
  e : CellVal
  deriving DecidableEq

/-- One row of sheet 2 (`SHEET2_COLS` and `COMMON_MATCH_COL`): `b` = column
B (Depo 100 reference), `j` = column J (summed), `g` = column G (match). -/
structure S2Row where
  b : CellVal
  j : CellVal
  g : CellVal
  deriving DecidableEq

/-- One row of sheet 3 (`SHEET3_COLS` and `COMMON_MATCH_COL`): `b` = column
B, `k` = column K (summed into Kullanılabilir Stok Depo 110), `l` = column L
(summed into Kalite Stoğu), `g` = column G (match).  Column J of
`SHEET3_COLS` is never read by this revision. -/
structure S3Row where
  b : CellVal
  k : CellVal
  l : CellVal
  g : CellVal
  deriving DecidableEq

/-- One row of sheet 4 (`SHEET4_COLS`): `c` = column C (match key), `i` =
column I (ordered quantity, summed), `s` = column S (delivery date). -/
structure S4Row where
  c : CellVal
  i : CellVal
  s : CellVal
  deriving DecidableEq

/-- The Durum (status) table cell as produced by `_update_l_column` and
possibly extended by `_process_fsnkp_rows`: the cell text is
`str(numeric)`, with `" #SİPARİŞ VER"` appended iff `orderFlag`, and
`" #FSNKP"` appended iff `fsnkp`. -/
structure DurumVal where
  numeric : ℚ
  orderFlag : Bool
  fsnkp : Bool
  deriving DecidableEq

/-- One data row of the displayed table, fields in column order 0–13 of
`HEADER_LABELS`.  String-typed fields are cells the code only ever reads as
text; `CellVal`-typed fields are cells the code reads back numerically;
`durum` is `none` while the cell is still the initial `""`. -/
structure DataRow where
  col0 : String
  malzeme : String
  aciklama : String
  miktar : CellVal
  depo100 : String
  stockASum : CellVal
  depo110 : String
  stockBSumPrimary : CellVal
  stockBSumSecondary : CellVal
  ihtiyac : CellVal
  durum : Option DurumVal
  verilen : CellVal
  gereken : CellVal
  teslim : String
  deriving DecidableEq

instance : Inhabited DataRow :=
  ⟨⟨"", "", "", .empty, "", .empty, "", .empty, .empty, .empty, none, .empty, .empty, ""⟩⟩

/-- One row of the displayed table: a synthetic block-header row (whose
cells are the kit code followed by the fixed `HEADER_LABELS[1:]` texts) or
a data row. -/
inductive Row
  | header (kitCode : String)
  | data (d : DataRow)
  deriving DecidableEq

instance : Inhabited Row := ⟨Row.header ""⟩

/-- Text of table column 1 (Malzeme): a header row shows the fixed label
`"Malzeme"` (`HEADER_LABELS[1]`). -/
def Row.malzemeText : Row → String
  | .header _ => "Malzeme"
  | .data d => d.malzeme

/-- Text of table column 2 (Açıklama): a header row shows the fixed label
`"Açıklama"` (`HEADER_LABELS[2]`). -/
def Row.aciklamaText : Row → String
  | .header _ => "Açıklama"
  | .data d => d.aciklama

/-- True block-header rows (the rows `_populate_table` records in
`highlighted_rows` while building the table). -/
def Row.isHeader : Row → Bool
  | .header _ => true
  | .data _ => false

/-- Header detection as `_process_fsnkp_rows` re-derives it afterwards and
as `_cell_changed` then consumes it: a row is treated as a header iff its
column-1 text equals the sentinel label `"Malzeme"`. -/
def isHeaderSentinel (r : Row) : Bool :=
  r.malzemeText == "Malzeme"

/-- The four sheets as the engine consumes them (first row already
skipped by `skiprows=[0]`), restricted to the columns the code reads. -/
structure ExcelData where
  s1 : List S1Row
  s2 : List S2Row
  s3 : List S3Row
  s4 : List S4Row

/-- Embeds the body of `_populate_table`'s first loop for one non-skipped
sheet-1 row: build the 14-column data row, matching sheets 2 and 3 on
column G against the raw sheet-1 column-C value, taking the first match's
reference column and the `_to_float_series` sum of the designated columns
over all matches; columns 9–13 start as `""`. -/
def buildDataRow (df2 : List S2Row) (df3 : List S3Row) (r : S1Row) : DataRow :=
  let s2m := df2.filter fun t => cellEq t.g r.c
  let s3m := df3.filter fun t => cellEq t.g r.c
  { col0 := cellStr r.a
    malzeme := cellStr r.c
    aciklama := cellStr r.g
    miktar := stringifyCell r.e
    depo100 := match s2m with
      | [] => ""
      | t :: _ => cellStr t.b
    stockASum := match s2m with
      | [] => .empty
      | _ :: _ => .num ((s2m.map fun t => toFloatSeries t.j).sum)
    depo110 := match s3m with
      | [] => ""
      | t :: _ => cellStr t.b
    stockBSumPrimary := match s3m with
      | [] => .empty
      | _ :: _ => .num ((s3m.map fun t => toFloatSeries t.k).sum)
    stockBSumSecondary := match s3m with
      | [] => .empty
      | _ :: _ => .num ((s3m.map fun t => toFloatSeries t.l).sum)
    ihtiyac := .empty
    durum := none
    verilen := .empty
    gereken := .empty
    teslim := "" }

/-- Embeds the header condition of `_populate_table`: emit a block header
when this is the very first sheet-1 row, or when the stringified column-A
value is a kit code (contains `-` and at least one letter) and differs from
the active block's kit code (`active` is `none` before the first header). -/
def headerCond (i : ℕ) (active : Option String) (raw : String) : Bool :=
  i == 0 || ((raw.data.contains '-' && raw.data.any Char.isAlpha)
    && (active.isNone || !(active == some raw)))

/-- Embeds `_populate_table`'s first loop.  When the header condition
holds, the synthetic header row is appended, the active kit code becomes
this row's column-A text, and `skip_next_data_row_after_header` makes the
loop `continue`, so the triggering row's own data is never emitted (the
flag is set and consumed within the same iteration); otherwise the row's
data record is appended. -/
def populateLoop (df2 : List S2Row) (df3 : List S3Row) :
    ℕ → Option String → List S1Row → List Row
  | _, _, [] => []
  | i, active, r :: rest =>
    let raw := cellStr r.a
    if headerCond i active raw then
      Row.header raw :: populateLoop df2 df3 (i + 1) (some raw) rest
    else
      Row.data (buildDataRow df2 df3 r) :: populateLoop df2 df3 (i + 1) active rest

/-- The boolean header/data shape of `populateLoop`'s output, computed by
the same recursion (used to state when a block header is emitted). -/
def triggerList : ℕ → Option String → List S1Row → List Bool
  | _, _, [] => []
  | i, active, r :: rest =>
    let raw := cellStr r.a
    if headerCond i active raw then
      true :: triggerList (i + 1) (some raw) rest
    else
      false :: triggerList (i + 1) active rest

/-- Embeds `_update_l_column`: Durum gets the value
`col5 + col7 + col8 - col9` (each via `_to_float`), its text carrying the
`"#SİPARİŞ VER"` marker exactly when the value is negative; a previous
`" #FSNKP"` suffix is overwritten since the text is rebuilt from scratch. -/
def updateL (d : DataRow) : DataRow :=
  let result := toFloat d.stockASum + toFloat d.stockBSumPrimary
    + toFloat d.stockBSumSecondary - toFloat d.ihtiyac
  { d with durum := some ⟨result, decide (result < 0), false⟩ }

/-- Sum of sheet-4 column I (via `_to_float_series`) over the rows whose
column C equals the table's Malzeme text — `verilen_siparis_miktari`. -/
def orderGiven (df4 : List S4Row) (key : String) : ℚ :=
  ((df4.filter fun t => strMatchesCell key t.c).map fun t => toFloatSeries t.i).sum

/-- Embeds the `durum_numeric_val` extraction of `_update_order_quantities`:
`0.0` unless the Durum text carries `"#SİPARİŞ VER"`, in which case the text
before the marker — `str(numeric)` — parses back to exactly `numeric`. -/
def durumNumeric : Option DurumVal → ℚ
  | some dv => if dv.orderFlag then dv.numeric else 0
  | none => 0

/-- Embeds `_update_order_quantities`: column 11 gets the sheet-4 order sum;
column 12 gets `abs(durum) - verilen` when the Durum value is negative and
that difference is positive, else `0.0`. -/
def updateOrders (df4 : List S4Row) (d : DataRow) : DataRow :=
  let verilen := orderGiven df4 d.malzeme
  let dn := durumNumeric d.durum
  let gereken := if dn < 0 then
      (if 0 < |dn| - verilen then |dn| - verilen else 0)
    else 0
  { d with verilen := .num verilen, gereken := .num gereken }

/-- Delivery-date text for a raw sheet-4 column-S value.  Modelled from the
spec: `pd.to_datetime` and `strftime` are external collaborators; the model
keeps the code's fallback behavior, the raw value's string (or `""` when
the cell is `NaN`).  No claim depends on the formatted text. -/
def formatDeliveryDate : CellVal → String
  | .empty => ""
  | .str s => s
  | .num q => ratRepr q

/-- Embeds the Teslim Tarihi step of `_populate_table`'s second loop:
column 13 gets the delivery-date text of the first sheet-4 row whose
column C equals the Malzeme text, else `""`. -/
def setTeslim (df4 : List S4Row) (d : DataRow) : DataRow :=
  match df4.filter fun t => strMatchesCell d.malzeme t.c with
  | [] => { d with teslim := "" }
  | t :: _ => { d with teslim := formatDeliveryDate t.s }

/-- Embeds `_populate_table`'s second loop for one row: header rows (the
`highlighted_rows` of the first loop) are skipped; each data row gets
`_update_l_column`, `_update_order_quantities` and its delivery date. -/
def postRow (df4 : List S4Row) : Row → Row
  | .header k => .header k
  | .data d => .data (setTeslim df4 (updateOrders df4 (updateL d)))

/-- Embeds `_populate_table` as a whole: build the row sequence, then derive
Durum, the order quantities and the delivery date for every data row. -/
def populateTable (d : ExcelData) : List Row :=
  (populateLoop d.s2 d.s3 0 none d.s1).map (postRow d.s4)

/-- The data row `_populate_table` produces for one non-skipped sheet-1
row. -/
def deriveRow (d : ExcelData) (r : S1Row) : Row :=
  Row.data (setTeslim d.s4 (updateOrders d.s4 (updateL (buildDataRow d.s2 d.s3 r))))

/-- Embeds the merge condition of `_process_fsnkp_rows` at table index `r`
(the backward loop visits `r = rowCount-1, …, 1`): row `r`'s Malzeme text
equals row `r-1`'s, row `r`'s Açıklama contains `"FSNKP"`, and row `r` is
not a header (sentinel test).  Columns 1 and 2 are never mutated by the
pass, so the condition over the original table equals the live one. -/
def fsnkpCond (rows : List Row) (r : ℕ) : Bool :=
  decide (1 ≤ r) &&
    match rows[r]?, rows[r - 1]? with
    | some cur, some prev =>
      cur.malzemeText == prev.malzemeText
        && containsSub "FSNKP".data cur.aciklamaText.data
        && !(cur.malzemeText == "Malzeme")
    | _, _ => false

/-- Embeds appending `" #FSNKP"` to a Durum cell's text; the code's guard
`if "#FSNKP" not in current_durum_text` means the marker is present at most
once, which the boolean `fsnkp` field records.  `_populate_table` sets
every data row's Durum before this runs, so the `none` case is idle. -/
def appendFsnkp : Row → Row
  | .header k => .header k
  | .data d => .data { d with durum := d.durum.map fun dv => { dv with fsnkp := true } }

/-- The table row left at original index `i` by the backward scan: it
received the merge marker exactly when its successor row matched. -/
def markAt (rows : List Row) (i : ℕ) : Row :=
  if fsnkpCond rows (i + 1) then appendFsnkp (rows.getD i (Row.header ""))
  else rows.getD i (Row.header "")

/-- Indices `i ≤ x < i + m` satisfying `p`, in increasing order — the
survivors of the removal step (`removeRow` from the highest marked index
down keeps exactly the unmarked rows, in their original order). -/
def survIdxAux (p : ℕ → Bool) : ℕ → ℕ → List ℕ
  | _, 0 => []
  | i, m + 1 =>
    if p i then i :: survIdxAux p (i + 1) m
    else survIdxAux p (i + 1) m

/-- Embeds `_process_fsnkp_rows`: the backward scan appends `" #FSNKP"` to
the predecessor of every matching row and marks the matching row; after the
scan the marked rows are removed from the highest index down.  (The
re-derivation of `highlighted_rows` afterwards is `isHeaderSentinel`.) -/
def processFsnkp (rows : List Row) : List Row :=
  (survIdxAux (fun i => !fsnkpCond rows i) 0 rows.length).map (markAt rows)

/-- The full population path of `_open_table_page`: `_populate_table`
followed by `_process_fsnkp_rows`. -/
def engineRun (d : ExcelData) : List Row :=
  processFsnkp (populateTable d)

/-- Malzeme texts of the data rows of a table, in order. -/
def dataMalzemes (rows : List Row) : List String :=
  rows.filterMap fun r =>
    match r with
    | .data d => some d.malzeme
    | .header _ => none

/-- Generic indexed map over the table rows, used to embed the loops of
`_cell_changed` (which rewrite cells in place row by row). -/
def tableMapIdx (f : ℕ → Row → Row) : ℕ → List Row → List Row
  | _, [] => []
  | i, r :: rest => f i r :: tableMapIdx f (i + 1) rest

/-- Embeds the per-row body of `_cell_changed`'s propagation loop: set
column 9 to `miktar × m` (`_to_float` of column 3 times the parsed input),
then recompute Durum and the order quantities. -/
def needRecompute (df4 : List S4Row) (m : ℚ) (d : DataRow) : DataRow :=
  updateOrders df4 (updateL { d with ihtiyac := .num (toFloat d.miktar * m) })

/-- Embeds `_cell_changed`'s invalid-input branch for the edited row: clear
column 9, recompute Durum with need 0, recompute the order quantities. -/
def clearRecompute (df4 : List S4Row) : Row → Row
  | .header k => .header k
  | .data d => .data (updateOrders df4 (updateL { d with ihtiyac := .empty }))

/-- Embeds `_cell_changed` for an edit of column 9 (İhtiyaç) at row `p`
with entered text `txt`, against the state after `_process_fsnkp_rows`
(where `highlighted_rows` is the `isHeaderSentinel` rows).  A header row
returns unchanged; unparseable input (after `,` → `.`) clears and
recomputes only row `p`; otherwise every non-header row from `p` on gets
`needRecompute`.  (`self._updating` only guards signal recursion, and only
column-9 edits reach the body.) -/
def cellChanged (df4 : List S4Row) (rows : List Row) (p : ℕ) (txt : String) :
    List Row :=
  match rows[p]? with
  | none => rows
  | some rp =>
    if isHeaderSentinel rp then rows
    else
      match parseDec (replaceChar txt ',' '.') with
      | none =>
        tableMapIdx (fun i r => if i == p then clearRecompute df4 r else r) 0 rows
      | some lit =>
        tableMapIdx (fun i r =>
          if i < p then r
          else if isHeaderSentinel r then r
          else match r with
            | .header k => .header k
            | .data d => .data (needRecompute df4 (decLitVal lit) d)) 0 rows

/-- Embeds `_load_excel`'s structural check: fewer than four sheets raises
`ValueError` before `self.excel_data` is assigned (the dictionary is built
in one expression, so a failing run exposes no partial output); with four
or more sheets the first four are loaded. -/
def loadExcel (sheets : List (List (List CellVal))) :
    Except String (List (List CellVal) × List (List CellVal)
      × List (List CellVal) × List (List CellVal)) :=
  if sheets.length < 4 then
    .error "Seçilen Excel dosyasında en az 4 sayfa bulunmalıdır."
  else
    .ok (sheets.getD 0 [], sheets.getD 1 [], sheets.getD 2 [], sheets.getD 3 [])

/-- The status-formula invariant of claim C1 for one data row: Durum holds
a value, its numeric part is the stock sums minus the need (as the current
cells coerce), and the order marker is present exactly when it is
negative. -/
def statusInvariant (d : DataRow) : Prop :=
  ∃ dv, d.durum = some dv
    ∧ dv.numeric = toFloat d.stockASum + toFloat d.stockBSumPrimary
        + toFloat d.stockBSumSecondary - toFloat d.ihtiyac
    ∧ (dv.orderFlag = true ↔ dv.numeric < 0)

theorem populateLoop_length (df2 : List S2Row) (df3 : List S3Row) :
    ∀ (l : List S1Row) (i : ℕ) (active : Option String),
      (populateLoop df2 df3 i active l).length = l.length
  | [], _, _ => rfl
  | r :: rest, i, active => by
    unfold populateLoop
    cases hc : headerCond i active (cellStr r.a) <;>
      simp [hc, populateLoop_length df2 df3 rest]

theorem populateLoop_get (df2 : List S2Row) (df3 : List S3Row) :
    ∀ (l : List S1Row) (i : ℕ) (active : Option String) (j : ℕ) (h : j < l.length),
      (populateLoop df2 df3 i active l)[j]? = some (Row.header (cellStr (l.get ⟨j, h⟩).a))
    ∨ (populateLoop df2 df3 i active l)[j]? = some (Row.data (buildDataRow df2 df3 (l.get ⟨j, h⟩)))
  | [], _, _, j, h => absurd h (by simp)
  | r :: rest, i, active, 0, h => by
    unfold populateLoop
    cases hc : headerCond i active (cellStr r.a) <;> simp [hc]
  | r :: rest, i, active, j + 1, h => by
    unfold populateLoop
    have hrest : j < rest.length := by simpa using Nat.lt_of_succ_lt_succ h
    cases hc : headerCond i active (cellStr r.a) <;>
      simpa [hc] using populateLoop_get df2 df3 rest (i + 1) _ j hrest

theorem populateTable_length (d : ExcelData) :
    (populateTable d).length = d.s1.length := by
  simp [populateTable, populateLoop_length]

theorem populateTable_get (d : ExcelData) (j : ℕ) (h : j < d.s1.length) :
    (populateTable d)[j]? = some (Row.header (cellStr (d.s1.get ⟨j, h⟩).a))
  ∨ (populateTable d)[j]? = some (deriveRow d (d.s1.get ⟨j, h⟩)) := by
  have := populateLoop_get d.s2 d.s3 d.s1 0 none j h
  rcases this with h1 | h1 <;> [left; right] <;>
    simp [populateTable, List.getElem?_map, h1, postRow, deriveRow]

/-- Three primary rows sharing hierarchy `"H1"` and material `"A-1"`,
`"A-1"`, `"A-1"`: a concrete input exercising duplicate material codes. -/
def dupInput : ExcelData :=
  { s1 := [⟨.str "H1", .str "A-1", .str "x", .str "1"⟩,
           ⟨.str "H1", .str "A-1", .str "y", .str "2"⟩,
           ⟨.str "H1", .str "A-1", .str "z", .str "3"⟩]
    s2 := [], s3 := [], s4 := [] }

/-- Claim C3 counterexample: the code performs no deduplication by material
code — on an input whose three rows all carry `materialCode = "A-1"`, two
data records with the same material code are retained (the first row is
consumed as the block-header trigger), so `materialCode` is not unique
among the output data records. -/
theorem c3_counterexample :
    dataMalzemes (engineRun dupInput) = ["A-1", "A-1"]
    ∧ ¬ (dataMalzemes (engineRun dupInput)).Nodup := by
  exact ⟨by decide, by decide⟩

/-- Claim C3 (amended): `_populate_table` performs no deduplication at all —
every sheet-1 row that is not consumed as a block-header trigger yields the
data record built from that row alone, regardless of any earlier row with
the same material code. -/
theorem c3_no_dedup (d : ExcelData) (j : ℕ) (h : j < d.s1.length) (r : Row)
    (hr : (populateTable d)[j]? = some r) (hnh : r.isHeader = false) :
    r = deriveRow d (d.s1.get ⟨j, h⟩) := by
  rcases populateTable_get d j h with h1 | h1
  · have h2 := Option.some.inj (hr.symm.trans h1)
    rw [h2] at hnh
    simp [Row.isHeader] at hnh
  · exact Option.some.inj (hr.symm.trans h1)

/-- The data record the code retains for the third `dupInput` row. -/
def dupThirdRow : Row := (populateTable dupInput).getD 2 (Row.header "")

/-- Claim C3 witness: the third duplicate row of `dupInput` is retained and
equals the record derived from that row alone. -/
theorem c3_witness :
    dupThirdRow = deriveRow dupInput (dupInput.s1.get ⟨2, by decide⟩) :=
  c3_no_dedup dupInput 2 (by decide) dupThirdRow rfl (by decide)

/-- The spec's RowFilter scenario: material codes `"A-1"`, `"A-1"`,
`"B-2---3"`, hierarchy `"H1"` throughout. -/
def hyphenInput : ExcelData :=
  { s1 := [⟨.str "H1", .str "A-1", .str "x", .str "1"⟩,
           ⟨.str "H1", .str "A-1", .str "y", .str "1"⟩,
           ⟨.str "H1", .str "B-2---3", .str "z", .str "1"⟩]
    s2 := [], s3 := [], s4 := [] }

/-- Claim C4 counterexample: on the claim's own scenario the row whose
material code carries three `-` characters is retained (there is no hyphen
filter), and the output is not one header plus one data record. -/
theorem c4_counterexample :
    "B-2---3" ∈ dataMalzemes (engineRun hyphenInput)
    ∧ (engineRun hyphenInput).length ≠ 2 := by
  exact ⟨by decide, by decide⟩

/-- Claim C4 (amended): no row filter exists — rows with 3 or more `-` in
the material code are retained.  On the scenario input the output is one
header for `"H1"` followed by two data records, for the second `"A-1"` row
(the first was consumed as the header trigger, not deduplicated) and for
`"B-2---3"`. -/
theorem c4_hyphen_rows_retained :
    dataMalzemes (engineRun hyphenInput) = ["A-1", "B-2---3"]
    ∧ (engineRun hyphenInput).map Row.isHeader = [true, false, false] := by
  exact ⟨by decide, by decide⟩

/-- Two primary rows whose hierarchy codes differ, the second not a kit
code (no `-`). -/
def nonKitInput : ExcelData :=
  { s1 := [⟨.str "A-X", .str "M1", .str "d", .str "1"⟩,
           ⟨.str "B2", .str "M2", .str "d", .str "1"⟩]
    s2 := [], s3 := [], s4 := [] }

/-- Claim C5 counterexample: the second row's hierarchy code `"B2"` differs
from the most recently seen `"A-X"`, yet no new block header is emitted,
because `"B2"` contains no `-` and therefore fails the kit-code test the
code adds to the claimed condition. -/
theorem c5_counterexample :
    (populateTable nonKitInput).map Row.isHeader = [true, false]
    ∧ cellStr (CellVal.str "B2") ≠ cellStr (CellVal.str "A-X") := by
  exact ⟨by decide, by decide⟩

/-- Claim C5 (amended): a block header is emitted exactly when the row is
the very first one, or its stringified hierarchy value is a kit code
(contains `-` and at least one letter) and differs from the active block's
kit code — `triggerList`, the code's own condition threaded through the
walk; mere difference from the previously seen value is neither necessary
nor sufficient unless the value is a kit code. -/
theorem c5_header_condition (d : ExcelData) :
    (populateTable d).map Row.isHeader = triggerList 0 none d.s1 := by
  have aux : ∀ (l : List S1Row) (i : ℕ) (active : Option String),
      ((populateLoop d.s2 d.s3 i active l).map (postRow d.s4)).map Row.isHeader
        = triggerList i active l := by
    intro l
    induction l with
    | nil => intro i active; rfl
    | cons r rest ih =>
      intro i active
      unfold populateLoop triggerList
      cases hc : headerCond i active (cellStr r.a) <;>
        simp [hc, postRow, Row.isHeader, ih]
  exact aux d.s1 0 none

/-- Claim C10: each sheet-1 row contributes exactly one output row, and a
row that triggers a block header contributes only the synthetic header
carrying its stringified column-A value — its description, quantity, stock
matches and derived fields never appear, since the `continue` skips the
row's data entirely. -/
theorem c10_header_trigger_row_skipped (d : ExcelData) :
    (populateTable d).length = d.s1.length
    ∧ ∀ (j : ℕ) (h : j < d.s1.length),
        (populateTable d)[j]? = some (Row.header (cellStr (d.s1.get ⟨j, h⟩).a))
      ∨ (populateTable d)[j]? = some (deriveRow d (d.s1.get ⟨j, h⟩)) :=
  ⟨populateTable_length d, fun j h => populateTable_get d j h⟩

/-- Two primary rows with the kit code `"K-1"`; the first triggers the
block header. -/
def kitInput : ExcelData :=
  { s1 := [⟨.str "K-1", .str "M1", .str "d", .str "2"⟩,
           ⟨.str "K-1", .str "M2", .str "e", .str "3"⟩]
    s2 := [], s3 := [], s4 := [] }

/-- Claim C10 witness: on `kitInput` the table has one row per source row,
and position 0 (the header trigger) holds either the bare header or that
row's data record. -/
theorem c10_witness :
    (populateTable kitInput).length = kitInput.s1.length
    ∧ ((populateTable kitInput)[0]? =
          some (Row.header (cellStr (kitInput.s1.get ⟨0, by decide⟩).a))
      ∨ (populateTable kitInput)[0]? =
          some (deriveRow kitInput (kitInput.s1.get ⟨0, by decide⟩))) :=
  ⟨(c10_header_trigger_row_skipped kitInput).1,
   (c10_header_trigger_row_skipped kitInput).2 0 (by decide)⟩

theorem survIdxAux_mem (p : ℕ → Bool) :
    ∀ (m i x : ℕ), x ∈ survIdxAux p i m → p x = true ∧ i ≤ x ∧ x < i + m
  | 0, i, x, h => absurd h (by simp [survIdxAux])
  | m + 1, i, x, h => by
    unfold survIdxAux at h
    by_cases hp : p i = true
    · rw [if_pos hp] at h
      rcases List.mem_cons.mp h with rfl | h2
      · exact ⟨hp, Nat.le_refl _, by omega⟩
      · have := survIdxAux_mem p m (i + 1) x h2
        exact ⟨this.1, by omega, by omega⟩
    · rw [if_neg hp] at h
      have := survIdxAux_mem p m (i + 1) x h
      exact ⟨this.1, by omega, by omega⟩

theorem processFsnkp_mem (rows : List Row) (r : Row) (h : r ∈ processFsnkp rows) :
    ∃ i, i < rows.length
      ∧ (r = rows.getD i (Row.header "")
        ∨ r = appendFsnkp (rows.getD i (Row.header ""))) := by
  unfold processFsnkp at h
  rcases List.mem_map.mp h with ⟨i, hi, hr⟩
  have hb := survIdxAux_mem _ _ _ _ hi
  refine ⟨i, by omega, ?_⟩
  unfold markAt at hr
  by_cases hc : fsnkpCond rows (i + 1) = true
  · right; rw [← hr, if_pos hc]
  · left; rw [← hr, if_neg hc]

theorem statusInvariant_updateL (d : DataRow) : statusInvariant (updateL d) := by
  refine ⟨_, rfl, rfl, ?_⟩
  exact decide_eq_true_iff

theorem statusInvariant_updateOrders (df4 : List S4Row) (x : DataRow)
    (hx : statusInvariant x) : statusInvariant (updateOrders df4 x) := hx

theorem setTeslim_fields (df4 : List S4Row) (x : DataRow) :
    ∃ t, setTeslim df4 x = { x with teslim := t } := by
  unfold setTeslim
  cases df4.filter fun t => strMatchesCell x.malzeme t.c with
  | nil => exact ⟨"", rfl⟩
  | cons t _ => exact ⟨formatDeliveryDate t.s, rfl⟩

theorem statusInvariant_setTeslim (df4 : List S4Row) (x : DataRow)
    (hx : statusInvariant x) : statusInvariant (setTeslim df4 x) := by
  obtain ⟨t, ht⟩ := setTeslim_fields df4 x
  rw [ht]; exact hx

theorem statusInvariant_appendFsnkp (r : Row) (dr : DataRow)
    (h : appendFsnkp r = Row.data dr)
    (hok : ∀ d0, r = Row.data d0 → statusInvariant d0) : statusInvariant dr := by
  cases r with
  | header k => exact absurd h (by simp [appendFsnkp])
  | data d0 =>
    obtain ⟨dv, hdv, hnum, hflag⟩ := hok d0 rfl
    have h2 : dr = { d0 with durum := d0.durum.map fun dv => { dv with fsnkp := true } } :=
      (Row.data.inj h).symm
    subst h2
    exact ⟨{ dv with fsnkp := true }, by rw [hdv]; rfl, hnum, hflag⟩

theorem populateTable_statusOk (d : ExcelData) (r : Row) (hr : r ∈ populateTable d)
    (dr : DataRow) (hd : r = Row.data dr) : statusInvariant dr := by
  rcases List.mem_map.mp hr with ⟨r0, _, hpost⟩
  cases r0 with
  | header k => rw [hd] at hpost; exact absurd hpost (by simp [postRow])
  | data d0 =>
    rw [hd] at hpost
    have h2 : dr = setTeslim d.s4 (updateOrders d.s4 (updateL d0)) :=
      (Row.data.inj hpost).symm
    subst h2
    exact statusInvariant_setTeslim _ _
      (statusInvariant_updateOrders _ _ (statusInvariant_updateL d0))

/-- Claim C1: every data record the engine exposes carries a Durum value
whose numeric part equals the sum of its Kullanılabilir Stok (Depo 100),
Kullanılabilir Stok (Depo 110) and Kalite Stoğu cells minus its İhtiyaç
cell, each coerced by `_to_float`, and the `"#SİPARİŞ VER"` marker is
present in the Durum text exactly when that value is negative. -/
theorem c1_status_formula (d : ExcelData) (i : ℕ) (dr : DataRow)
    (h : (engineRun d).getD i (Row.header "") = Row.data dr) :
    ∃ dv, dr.durum = some dv
      ∧ dv.numeric = toFloat dr.stockASum + toFloat dr.stockBSumPrimary
          + toFloat dr.stockBSumSecondary - toFloat dr.ihtiyac
      ∧ (dv.orderFlag = true ↔ dv.numeric < 0) := by
  have hmem : Row.data dr ∈ engineRun d := by
    by_cases hi : i < (engineRun d).length
    · rw [List.getD_eq_getElem _ _ hi] at h
      rw [← h]
      exact List.getElem_mem _
    · rw [List.getD_eq_default _ _ (Nat.le_of_not_lt hi)] at h
      exact absurd h (by simp)
  rcases processFsnkp_mem _ _ hmem with ⟨j, hj, hcase⟩
  have hmem2 : (populateTable d).getD j (Row.header "") ∈ populateTable d := by
    rw [List.getD_eq_getElem _ _ hj]
    exact List.getElem_mem _
  rcases hcase with hcase | hcase
  · exact populateTable_statusOk d _ hmem2 dr hcase.symm
  · exact statusInvariant_appendFsnkp _ dr hcase.symm
      (fun d0 h0 => populateTable_statusOk d _ hmem2 d0 h0)

/-- The data record at position 1 of the engine's output on `kitInput`. -/
def kitRow1 : DataRow :=
  match (engineRun kitInput).getD 1 (Row.header "") with
  | .data d => d
  | .header _ => default

/-- Claim C1 witness: the status formula holds at the concrete data record
`kitRow1`. -/
theorem c1_witness :
    ∃ dv, kitRow1.durum = some dv
      ∧ dv.numeric = toFloat kitRow1.stockASum + toFloat kitRow1.stockBSumPrimary
          + toFloat kitRow1.stockBSumSecondary - toFloat kitRow1.ihtiyac
      ∧ (dv.orderFlag = true ↔ dv.numeric < 0) :=
  c1_status_formula kitInput 1 kitRow1 rfl


theorem tableMapIdx_length (f : ℕ → Row → Row) :
    ∀ (l : List Row) (i : ℕ), (tableMapIdx f i l).length = l.length
  | [], _ => rfl
  | r :: rest, i => by simp [tableMapIdx, tableMapIdx_length f rest]

theorem tableMapIdx_get (f : ℕ → Row → Row) :
    ∀ (l : List Row) (i j : ℕ), (tableMapIdx f i l)[j]? = (l[j]?).map (f (i + j))
  | [], _, _ => by simp [tableMapIdx]
  | r :: rest, i, 0 => by simp [tableMapIdx]
  | r :: rest, i, j + 1 => by
    have := tableMapIdx_get f rest (i + 1) j
    simpa [tableMapIdx, Nat.add_assoc, Nat.add_comm 1 j] using this

/-- Claim C2: when a numeric multiplier is entered in the İhtiyaç column at
a non-header position `p`, every non-header row at position ≥ p (inclusive)
gets `need := quantity × m` and its Durum and order quantities recomputed,
rows before `p` are untouched, and header rows in the suffix are skipped
(headers being the rows the engine classifies by the `"Malzeme"` sentinel
after the merge pass). -/
theorem c2_need_propagation (df4 : List S4Row) (rows : List Row) (p : ℕ)
    (txt : String) (lit : DecLit) (d0 : DataRow)
    (hp : rows[p]? = some (Row.data d0)) (hd0 : d0.malzeme ≠ "Malzeme")
    (hm : parseDec (replaceChar txt ',' '.') = some lit) :
    (cellChanged df4 rows p txt).length = rows.length
    ∧ (∀ i, i < p → (cellChanged df4 rows p txt)[i]? = rows[i]?)
    ∧ (∀ i r, p ≤ i → rows[i]? = some r → isHeaderSentinel r = true →
        (cellChanged df4 rows p txt)[i]? = some r)
    ∧ (∀ i dr, p ≤ i → rows[i]? = some (Row.data dr) → dr.malzeme ≠ "Malzeme" →
        (cellChanged df4 rows p txt)[i]? =
          some (Row.data (needRecompute df4 (decLitVal lit) dr))) := by
  have hsent : isHeaderSentinel (Row.data d0) = false := by
    simp [isHeaderSentinel, Row.malzemeText, hd0]
  have hcc : cellChanged df4 rows p txt = tableMapIdx (fun i r =>
      if i < p then r
      else if isHeaderSentinel r then r
      else match r with
        | .header k => .header k
        | .data d => .data (needRecompute df4 (decLitVal lit) d)) 0 rows := by
    unfold cellChanged
    rw [hp]
    simp [hsent, hm]
  refine ⟨?_, ?_, ?_, ?_⟩
  · rw [hcc, tableMapIdx_length]
  · intro i hi
    rw [hcc, tableMapIdx_get]
    cases rows[i]? with
    | none => rfl
    | some r => simp [hi]
  · intro i r hi hr hsr
    rw [hcc, tableMapIdx_get, hr]
    simp [Nat.not_lt.mpr hi, hsr]
  · intro i dr hi hr hdr
    rw [hcc, tableMapIdx_get, hr]
    have : isHeaderSentinel (Row.data dr) = false := by
      simp [isHeaderSentinel, Row.malzemeText, hdr]
    simp [Nat.not_lt.mpr hi, this]

/-- A minimal data row with quantity 2 (the spec's need-propagation
scenario). -/
def propRow0 : DataRow :=
  { col0 := "H", malzeme := "M0", aciklama := "a", miktar := .str "2",
    depo100 := "", stockASum := .empty, depo110 := "",
    stockBSumPrimary := .empty, stockBSumSecondary := .empty,
    ihtiyac := .empty, durum := none, verilen := .empty, gereken := .empty,
    teslim := "" }

def propRow1 : DataRow := { propRow0 with malzeme := "M1", miktar := .str "3" }

def propRow2 : DataRow := { propRow0 with malzeme := "M2", miktar := .str "5" }

def propRows : List Row := [Row.data propRow0, Row.data propRow1, Row.data propRow2]

/-- Claim C2 witness: on rows with quantities `[2, 3, 5]`, an edit `4` at
position 1 leaves position 0 unchanged and recomputes position 2. -/
theorem c2_witness :
    (cellChanged [] propRows 1 "4")[0]? = propRows[0]?
    ∧ (cellChanged [] propRows 1 "4")[2]? =
        some (Row.data (needRecompute [] (decLitVal ⟨false, 4, 0, 0⟩) propRow2)) :=
  ⟨(c2_need_propagation [] propRows 1 "4" ⟨false, 4, 0, 0⟩ propRow1 rfl
      (by decide) (by decide)).2.1 0 (by decide),
   (c2_need_propagation [] propRows 1 "4" ⟨false, 4, 0, 0⟩ propRow1 rfl
      (by decide) (by decide)).2.2.2 2 propRow2 (by decide) rfl (by decide)⟩


/-- Text of the İhtiyaç (need) cell of a table row. -/
def rowNeed : Row → CellVal
  | .data d => d.ihtiyac
  | .header _ => .empty

/-- A single data row with quantity 2, for exercising a need edit. -/
def c6Row : DataRow :=
  { col0 := "H", malzeme := "M", aciklama := "a", miktar := .str "2",
    depo100 := "", stockASum := .empty, depo110 := "",
    stockBSumPrimary := .empty, stockBSumSecondary := .empty,
    ihtiyac := .empty, durum := none, verilen := .empty, gereken := .empty,
    teslim := "" }

def c6Rows : List Row := [Row.data c6Row]

/-- Claim C6 counterexample: the dot-stripping coercion rule is not applied
uniformly — entering `"1.234,50"` as the İhtiyaç value does not yield need
`2 × 1234.50`; the edit handler's own coercion (`,` → `.` only) fails on it
and the cell is cleared, while `_to_float_series` maps the same text to
`1234.50`. -/
theorem c6_counterexample :
    rowNeed ((cellChanged [] c6Rows 0 "1.234,50").getD 0 (Row.header "")) = CellVal.empty
    ∧ toFloatSeries (.str "1.234,50") = (1234.5 : ℚ)
    ∧ CellVal.empty ≠ CellVal.num (toFloat (.str "2") * (1234.5 : ℚ)) := by
  refine ⟨rfl, ?_, by simp⟩
  have h1 : parseDec (replaceChar (dropCharAll "1.234,50" '.') ',' '.')
      = some ⟨false, 1234, 50, 2⟩ := by decide
  simp [toFloatSeries, parseFloat, h1, decLitVal]
  norm_num

/-- Claim C6 (amended): `_to_float_series` (used when summing the
secondary-table numeric columns) maps `"1.234,50"` to `1234.50`, `""` to
`0.0` and `None` to `0.0`; but table cells — including the user-edited
İhtiyaç field — are coerced by `_to_float`, which only replaces `,` by `.`
without stripping dots, so `"1.234,50"` there coerces to `0.0` (parse
failure) and `"1234,50"` to `1234.50`. -/
theorem c6_coercion :
    toFloatSeries (.str "1.234,50") = (1234.5 : ℚ)
    ∧ toFloatSeries (.str "") = 0
    ∧ toFloatSeries .empty = 0
    ∧ toFloat .empty = 0
    ∧ toFloat (.str "1.234,50") = 0
    ∧ toFloat (.str "1234,50") = (1234.5 : ℚ) := by
  have h1 : parseDec (replaceChar (dropCharAll "1.234,50" '.') ',' '.')
      = some ⟨false, 1234, 50, 2⟩ := by decide
  have h2 : parseDec (replaceChar "1.234,50" ',' '.') = none := by decide
  have h3 : parseDec (replaceChar "1234,50" ',' '.') = some ⟨false, 1234, 50, 2⟩ := by decide
  refine ⟨?_, rfl, rfl, rfl, ?_, ?_⟩
  · simp [toFloatSeries, parseFloat, h1, decLitVal]; norm_num
  · simp [toFloat, parseFloat, h2]
  · simp [toFloat, parseFloat, h3, decLitVal]; norm_num

theorem max_of_if_pos (t : ℚ) : (if 0 < t then t else 0) = max 0 t := by
  rcases le_or_lt t 0 with h | h
  · rw [if_neg (not_lt.mpr h), max_eq_left h]
  · rw [if_pos h, max_eq_right h.le]

/-- Claim C7: after `_update_order_quantities` runs on a freshly recomputed
Durum value, the Verilmesi Gereken amount equals
`max 0 (|durum| - orderGiven)` when the `"#SİPARİŞ VER"` marker is present,
and `0` when it is absent, regardless of `orderGiven` — where `orderGiven`
is the sheet-4 column-I sum over the rows matching the record's Malzeme. -/
theorem c7_order_required (df4 : List S4Row) (d : DataRow) (dv : DurumVal)
    (hdv : (updateL d).durum = some dv) :
    (dv.orderFlag = true →
      (updateOrders df4 (updateL d)).gereken =
        .num (max 0 (|dv.numeric| - orderGiven df4 d.malzeme)))
    ∧ (dv.orderFlag = false →
      (updateOrders df4 (updateL d)).gereken = .num 0) := by
  have hdv2 : dv = ⟨toFloat d.stockASum + toFloat d.stockBSumPrimary
      + toFloat d.stockBSumSecondary - toFloat d.ihtiyac,
      decide (toFloat d.stockASum + toFloat d.stockBSumPrimary
        + toFloat d.stockBSumSecondary - toFloat d.ihtiyac < 0), false⟩ :=
    (Option.some.inj hdv).symm
  set result := toFloat d.stockASum + toFloat d.stockBSumPrimary
    + toFloat d.stockBSumSecondary - toFloat d.ihtiyac with hres
  constructor
  · intro hflag
    have hneg : result < 0 := by
      rw [hdv2] at hflag
      exact of_decide_eq_true hflag
    have hdn : durumNumeric (updateL d).durum = result := by
      rw [hdv, hdv2]
      simp [durumNumeric, decide_eq_true_iff.mpr hneg]
    simp only [updateOrders, hdn, if_pos hneg, max_of_if_pos]
    rw [hdv2]
    rfl
  · intro hflag
    have hnneg : ¬ result < 0 := by
      rw [hdv2] at hflag
      simpa using of_decide_eq_false hflag
    have hdn : durumNumeric (updateL d).durum = 0 := by
      rw [hdv, hdv2]
      simp [durumNumeric, hflag, decide_eq_false hnneg]
    simp [updateOrders, hdn]

/-- A data row with need 5 and no stock, so its Durum is negative. -/
def c7Row : DataRow :=
  { col0 := "H", malzeme := "M", aciklama := "a", miktar := .str "2",
    depo100 := "", stockASum := .empty, depo110 := "",
    stockBSumPrimary := .empty, stockBSumSecondary := .empty,
    ihtiyac := .num 5, durum := none, verilen := .empty, gereken := .empty,
    teslim := "" }

/-- The Durum value `_update_l_column` computes for `c7Row`. -/
def c7Durum : DurumVal :=
  match (updateL c7Row).durum with
  | some dv => dv
  | none => ⟨0, false, false⟩

/-- Claim C7 witness: the order-required formula instantiated at `c7Row`. -/
theorem c7_witness :
    (c7Durum.orderFlag = true →
      (updateOrders [] (updateL c7Row)).gereken =
        .num (max 0 (|c7Durum.numeric| - orderGiven [] c7Row.malzeme)))
    ∧ (c7Durum.orderFlag = false →
      (updateOrders [] (updateL c7Row)).gereken = .num 0) :=
  c7_order_required [] c7Row c7Durum rfl

/-- Claim C9: fewer than four sheets makes `_load_excel` fail hard with an
error value and no output (the `Except` carries no table on the error path,
so no partially built output is exposed); malformed cells and missing key
matches are never errors — both coercions return `0.0` on parse failure and
an empty match list yields zero defaults. -/
theorem c9_structural_failure :
    (∀ sheets, sheets.length < 4 → ∃ e, loadExcel sheets = Except.error e)
    ∧ (∀ sheets, 4 ≤ sheets.length → ∃ out, loadExcel sheets = Except.ok out)
    ∧ (∀ s, parseDec (replaceChar (dropCharAll s '.') ',' '.') = none →
        toFloatSeries (.str s) = 0)
    ∧ (∀ s, parseDec (replaceChar s ',' '.') = none → toFloat (.str s) = 0)
    ∧ (∀ key, orderGiven [] key = 0)
    ∧ (∀ d, (updateOrders [] d).verilen = CellVal.num 0) := by
  refine ⟨?_, ?_, ?_, ?_, fun key => rfl, fun d => rfl⟩
  · intro sheets h
    exact ⟨_, by rw [loadExcel, if_pos h]⟩
  · intro sheets h
    exact ⟨_, by rw [loadExcel, if_neg (Nat.not_lt.mpr h)]⟩
  · intro s h
    simp [toFloatSeries, parseFloat, h]
  · intro s h
    simp [toFloat, parseFloat, h]

/-- Claim C9 witness: zero sheets fail, four sheets load, and an
unparseable cell coerces to `0` under both rules. -/
theorem c9_witness :
    (∃ e, loadExcel [] = Except.error e)
    ∧ (∃ out, loadExcel [[], [], [], []] = Except.ok out)
    ∧ toFloatSeries (.str "abc") = 0
    ∧ toFloat (.str "abc") = 0 :=
  ⟨c9_structural_failure.1 [] (by decide),
   c9_structural_failure.2.1 [[], [], [], []] (by decide),
   c9_structural_failure.2.2.1 "abc" (by decide),
   c9_structural_failure.2.2.2.1 "abc" (by decide)⟩


theorem survIdxAux_head (p : ℕ → Bool) :
    ∀ (m i b : ℕ), (survIdxAux p i m)[0]? = some b →
      ∀ x, i ≤ x → x < b → p x = false
  | 0, i, b, h => by simp [survIdxAux] at h
  | m + 1, i, b, h => by
    unfold survIdxAux at h
    by_cases hp : p i = true
    · rw [if_pos hp] at h
      simp at h
      intro x h1 h2
      omega
    · rw [if_neg hp] at h
      intro x h1 h2
      rcases Nat.eq_or_lt_of_le h1 with rfl | h3
      · exact eq_false_of_ne_true hp
      · exact survIdxAux_head p m (i + 1) b h x h3 h2

theorem survIdxAux_lt (p : ℕ → Bool) :
    ∀ (m i k a b : ℕ), (survIdxAux p i m)[k]? = some a →
      (survIdxAux p i m)[k + 1]? = some b → a < b
  | 0, i, k, a, b, ha, _ => by simp [survIdxAux] at ha
  | m + 1, i, k, a, b, ha, hb => by
    unfold survIdxAux at ha hb
    by_cases hp : p i = true
    · rw [if_pos hp] at ha hb
      cases k with
      | zero =>
        simp at ha
        have hmem : b ∈ survIdxAux p (i + 1) m := List.getElem?_mem (by simpa using hb)
        have := survIdxAux_mem p m (i + 1) b hmem
        omega
      | succ k' =>
        exact survIdxAux_lt p m (i + 1) k' a b (by simpa using ha) (by simpa using hb)
    · rw [if_neg hp] at ha hb
      exact survIdxAux_lt p m (i + 1) k a b ha hb

theorem survIdxAux_gap (p : ℕ → Bool) :
    ∀ (m i k a b : ℕ), (survIdxAux p i m)[k]? = some a →
      (survIdxAux p i m)[k + 1]? = some b →
      ∀ x, a < x → x < b → p x = false
  | 0, i, k, a, b, ha, _ => by simp [survIdxAux] at ha
  | m + 1, i, k, a, b, ha, hb => by
    unfold survIdxAux at ha hb
    by_cases hp : p i = true
    · rw [if_pos hp] at ha hb
      cases k with
      | zero =>
        simp at ha
        intro x h1 h2
        exact survIdxAux_head p m (i + 1) b (by simpa using hb) x (by omega) h2
      | succ k' =>
        exact survIdxAux_gap p m (i + 1) k' a b (by simpa using ha) (by simpa using hb)
    · rw [if_neg hp] at ha hb
      exact survIdxAux_gap p m (i + 1) k a b ha hb

theorem fsnkpCond_elim {rows : List Row} {r : ℕ} (h : fsnkpCond rows r = true) :
    1 ≤ r ∧ ∃ cur prev, rows[r]? = some cur ∧ rows[r - 1]? = some prev
      ∧ cur.malzemeText = prev.malzemeText
      ∧ containsSub "FSNKP".data cur.aciklamaText.data = true
      ∧ cur.malzemeText ≠ "Malzeme" := by
  unfold fsnkpCond at h
  rw [Bool.and_eq_true] at h
  obtain ⟨h1, h2⟩ := h
  refine ⟨of_decide_eq_true h1, ?_⟩
  cases hc : rows[r]? with
  | none => rw [hc] at h2; simp at h2
  | some cur =>
    cases hpv : rows[r - 1]? with
    | none => rw [hc, hpv] at h2; simp at h2
    | some prev =>
      rw [hc, hpv] at h2
      simp only [Bool.and_eq_true, beq_iff_eq, Bool.not_eq_true',
        beq_eq_false_iff_ne] at h2
      exact ⟨cur, prev, rfl, rfl, h2.1.1, h2.1.2, h2.2⟩

theorem fsnkpCond_intro {rows : List Row} {r : ℕ} {cur prev : Row}
    (h1 : 1 ≤ r) (hc : rows[r]? = some cur) (hp : rows[r - 1]? = some prev)
    (hm : cur.malzemeText = prev.malzemeText)
    (hf : containsSub "FSNKP".data cur.aciklamaText.data = true)
    (hnm : cur.malzemeText ≠ "Malzeme") : fsnkpCond rows r = true := by
  have hnm2 : prev.malzemeText ≠ "Malzeme" := hm ▸ hnm
  unfold fsnkpCond
  rw [hc, hp]
  simp [h1, hm, hf, hnm, hnm2]

theorem malzemeText_appendFsnkp (r : Row) :
    (appendFsnkp r).malzemeText = r.malzemeText := by
  cases r <;> rfl

theorem aciklamaText_appendFsnkp (r : Row) :
    (appendFsnkp r).aciklamaText = r.aciklamaText := by
  cases r <;> rfl

theorem malzemeText_markAt (rows : List Row) (i : ℕ) :
    (markAt rows i).malzemeText = (rows.getD i (Row.header "")).malzemeText := by
  unfold markAt
  split <;> simp [malzemeText_appendFsnkp]

theorem aciklamaText_markAt (rows : List Row) (i : ℕ) :
    (markAt rows i).aciklamaText = (rows.getD i (Row.header "")).aciklamaText := by
  unfold markAt
  split <;> simp [aciklamaText_appendFsnkp]

theorem malzChain (rows : List Row) (a : ℕ) :
    ∀ k, (∀ x, a < x → x ≤ a + k → fsnkpCond rows x = true) →
      (rows.getD (a + k) (Row.header "")).malzemeText
        = (rows.getD a (Row.header "")).malzemeText
  | 0, _ => rfl
  | k + 1, hx => by
    obtain ⟨-, cur, prev, hcur, hprev, hmz, -, -⟩ :=
      fsnkpCond_elim (hx (a + k + 1) (by omega) (by omega))
    have e1 : rows.getD (a + (k + 1)) (Row.header "") = cur := by
      rw [show a + (k + 1) = a + k + 1 from by omega,
        List.getD_eq_getElem?_getD, hcur]
      rfl
    have e2 : rows.getD (a + k) (Row.header "") = prev := by
      have hprev' : rows[a + k]? = some prev := hprev
      rw [List.getD_eq_getElem?_getD, hprev']
      rfl
    rw [e1, hmz, ← e2]
    exact malzChain rows a k (fun x hx1 hx2 => hx x hx1 (by omega))

/-- Claim C8: after the merge pass, no two adjacent non-header records (as
the engine classifies headers) share a Malzeme with the later one's
description containing the `"FSNKP"` merge trigger; and appending the
`"#FSNKP"` status marker is idempotent, so it occurs at most once. -/
theorem c8_merge_safety (rows : List Row) (i : ℕ)
    (h : i + 1 < (processFsnkp rows).length) :
    (¬ (isHeaderSentinel ((processFsnkp rows).getD i (Row.header "")) = false
      ∧ isHeaderSentinel ((processFsnkp rows).getD (i + 1) (Row.header "")) = false
      ∧ ((processFsnkp rows).getD i (Row.header "")).malzemeText
          = ((processFsnkp rows).getD (i + 1) (Row.header "")).malzemeText
      ∧ containsSub "FSNKP".data
          (((processFsnkp rows).getD (i + 1) (Row.header "")).aciklamaText.data)
            = true))
    ∧ (∀ r : Row, appendFsnkp (appendFsnkp r) = appendFsnkp r) := by
  constructor
  · set p := fun x => !fsnkpCond rows x with hpdef
    have hlen : (processFsnkp rows).length = (survIdxAux p 0 rows.length).length := by
      unfold processFsnkp
      rw [List.length_map]
    have hlt1 : i + 1 < (survIdxAux p 0 rows.length).length := by omega
    obtain ⟨a, ha⟩ : ∃ a, (survIdxAux p 0 rows.length)[i]? = some a :=
      ⟨_, List.getElem?_eq_getElem (by omega)⟩
    obtain ⟨b, hb⟩ : ∃ b, (survIdxAux p 0 rows.length)[i + 1]? = some b :=
      ⟨_, List.getElem?_eq_getElem hlt1⟩
    have hout_i : (processFsnkp rows).getD i (Row.header "") = markAt rows a := by
      unfold processFsnkp
      rw [List.getD_eq_getElem?_getD, List.getElem?_map, ha]
      rfl
    have hout_i1 : (processFsnkp rows).getD (i + 1) (Row.header "") = markAt rows b := by
      unfold processFsnkp
      rw [List.getD_eq_getElem?_getD, List.getElem?_map, hb]
      rfl
    have hpa := survIdxAux_mem p rows.length 0 a (List.getElem?_mem ha)
    have hpb := survIdxAux_mem p rows.length 0 b (List.getElem?_mem hb)
    have hab := survIdxAux_lt p rows.length 0 i a b ha hb
    have hgap := survIdxAux_gap p rows.length 0 i a b ha hb
    rintro ⟨hs1, hs2, hmz, hfs⟩
    rw [hout_i] at hs1
    rw [hout_i1] at hs2 hfs
    rw [hout_i, hout_i1] at hmz
    rw [isHeaderSentinel, malzemeText_markAt, beq_eq_false_iff_ne] at hs1 hs2
    rw [malzemeText_markAt, malzemeText_markAt] at hmz
    rw [aciklamaText_markAt] at hfs
    have hbn : b < rows.length := by omega
    have hbn1 : b - 1 < rows.length := by omega
    have hcb : rows[b]? = some (rows.getD b (Row.header "")) := by
      rw [List.getD_eq_getElem _ _ hbn]
      exact List.getElem?_eq_getElem hbn
    have hcb1 : rows[b - 1]? = some (rows.getD (b - 1) (Row.header "")) := by
      rw [List.getD_eq_getElem _ _ hbn1]
      exact List.getElem?_eq_getElem hbn1
    have hchain : (rows.getD (b - 1) (Row.header "")).malzemeText
        = (rows.getD a (Row.header "")).malzemeText := by
      have hrange : ∀ x, a < x → x ≤ a + (b - 1 - a) → fsnkpCond rows x = true := by
        intro x hx1 hx2
        have hpx : p x = false := hgap x hx1 (by omega)
        rw [hpdef] at hpx
        simpa using hpx
      have := malzChain rows a (b - 1 - a) hrange
      rwa [show a + (b - 1 - a) = b - 1 from by omega] at this
    have hcond : fsnkpCond rows b = true := by
      refine fsnkpCond_intro (by omega) hcb hcb1 ?_ hfs hs2
      rw [hmz.symm, hchain]
    have hpbf : p b = true := hpa.1 ▸ hpb.1
    rw [hpdef] at hpbf
    simp [hcond] at hpbf
  · intro r
    cases r with
    | header k => rfl
    | data d =>
      cases hdo : d.durum with
      | none => simp [appendFsnkp, hdo]
      | some dv => simp [appendFsnkp, hdo]

/-- A data row for material `"M1"` with a plain description. -/
def mergeRow0 : DataRow :=
  { col0 := "H", malzeme := "M1", aciklama := "a", miktar := .str "1",
    depo100 := "", stockASum := .empty, depo110 := "",
    stockBSumPrimary := .empty, stockBSumSecondary := .empty,
    ihtiyac := .empty, durum := some ⟨0, false, false⟩, verilen := .empty,
    gereken := .empty, teslim := "" }

/-- A duplicate of `mergeRow0` whose description carries the merge
trigger. -/
def mergeRow1 : DataRow := { mergeRow0 with aciklama := "x FSNKP y" }

/-- A data row for a different material. -/
def mergeRow2 : DataRow := { mergeRow0 with malzeme := "M2", aciklama := "b" }

/-- A table with a mergeable duplicate pair followed by another material. -/
def mergeRows : List Row :=
  [Row.data mergeRow0, Row.data mergeRow1, Row.data mergeRow2]

/-- Claim C8 witness: on a concrete table where a duplicate `"M1"` row with
an `"FSNKP"` description follows its original, the post-pass table violates
no adjacency condition at position 0, and the marker append is idempotent. -/
theorem c8_witness :
    (¬ (isHeaderSentinel ((processFsnkp mergeRows).getD 0 (Row.header "")) = false
      ∧ isHeaderSentinel ((processFsnkp mergeRows).getD 1 (Row.header "")) = false
      ∧ ((processFsnkp mergeRows).getD 0 (Row.header "")).malzemeText
          = ((processFsnkp mergeRows).getD 1 (Row.header "")).malzemeText
      ∧ containsSub "FSNKP".data
          (((processFsnkp mergeRows).getD 1 (Row.header "")).aciklamaText.data)
            = true))
    ∧ (∀ r : Row, appendFsnkp (appendFsnkp r) = appendFsnkp r) :=
  c8_merge_safety mergeRows 0 (by decide)

end Xlsx
